import Mathlib

/-!
# Verification of the imv background image loader (src/loader.c)

This file gives a shallow embedding of `src/loader.c` and settles a list of
claims about it.  The embedding models:

* the shared `struct imv_loader` state (`Loader` below), with C `int` fields
  as `Int`, the C `double frame_time` idealized as `ℚ`, and nullable pointers
  as `Option`;
* FreeImage bitmaps symbolically (`Bmp`): each FreeImage primitive that
  produces a bitmap becomes a constructor, and `FreeImage_GetWidth` /
  `FreeImage_GetHeight` become recursive functions over those constructors
  (`FreeImage_GetWidth` applied to a NULL bitmap returns 0, as the FreeImage
  implementation does after its null check);
* the worker bodies `bg_new_img` and `bg_next_frame` as pure state
  transformers.  The outcomes of the external FreeImage calls made by
  `bg_new_img` (format detection, multi-bitmap open, single-image load) and
  the two `is_thread_cancelled()` polls are parameters (`NewImgEnv`), since
  they are inputs from outside the loader state;
* SDL events pushed by the workers as a returned list of `Event`s, and the
  FreeImage release calls (`FreeImage_Unload`, `FreeImage_CloseMultiBitmap`,
  `FreeImage_CloseMemory`) as a returned list of `FreedRes` records.

Pointer identity, threads and the pthread mutex are not modelled: each worker
body is embedded as the sequential execution it performs on the state it
observes, which is what the claims quantify over.
-/

namespace Imv

/-- `FREE_IMAGE_FORMAT` as relevant to loader.c: `FIF_UNKNOWN`, `FIF_GIF`,
`FIF_JPEG` are distinguished by the code; every other recognised format is
`other n`. -/
inductive Format where
  | unknown
  | gif
  | jpeg
  | other (n : Nat)
  deriving Repr, DecidableEq

/-- Symbolic FreeImage bitmap values (`FIBITMAP *`).  `img w h` is the result
of a `FreeImage_Load`/`FreeImage_LoadFromMemory` decode of a single-frame
image of the given dimensions; `page idx w h` is a page obtained from
`FreeImage_LockPage` at index `idx`; the remaining constructors record the
FreeImage primitives that build new bitmaps from old ones. -/
inductive Bmp where
  | img (w h : Int)
  | page (idx w h : Int)
  | convertTo32 (b : Bmp)
  | convertTo24 (b : Bmp)
  | alloc (w h : Int)
  | paste (dst src : Bmp) (left top : Int)
  | composite (fg bg : Bmp)
  deriving Repr, DecidableEq

/-- `FreeImage_GetWidth` on a non-NULL bitmap: `ConvertTo32Bits`,
`ConvertTo24Bits` and `Paste` preserve the (destination) dimensions;
`FreeImage_Allocate` has the requested ones; `FreeImage_Composite` returns a
bitmap with the foreground's dimensions. -/
def Bmp.width : Bmp → Int
  | .img w _ => w
  | .page _ w _ => w
  | .convertTo32 b => b.width
  | .convertTo24 b => b.width
  | .alloc w _ => w
  | .paste dst _ _ _ => dst.width
  | .composite fg _ => fg.width

/-- `FreeImage_GetHeight` on a non-NULL bitmap. -/
def Bmp.height : Bmp → Int
  | .img _ h => h
  | .page _ _ h => h
  | .convertTo32 b => b.height
  | .convertTo24 b => b.height
  | .alloc _ h => h
  | .paste dst _ _ _ => dst.height
  | .composite fg _ => fg.height

/-- `FreeImage_GetWidth` including the NULL case: FreeImage null-checks its
argument and returns 0 for a NULL bitmap. -/
def getWidth : Option Bmp → Int
  | none => 0
  | some b => b.width

/-- `FreeImage_GetHeight` including the NULL case (0 for NULL). -/
def getHeight : Option Bmp → Int
  | none => 0
  | some b => b.height

/-- One page of a multi-bitmap together with the `FIMD_ANIMATION` metadata
tags loader.c reads from it.  A tag is `none` when `FreeImage_GetMetadata`
finds no such tag (`FreeImage_GetMetadata` resets the tag pointer to NULL
before searching, so a failed lookup always yields NULL, and
`FreeImage_GetTagValue` of a present tag is a non-NULL value pointer even
when the stored value is 0). -/
structure Page where
  width : Int
  height : Int
  disposalMethod : Option Int
  frameLeft : Option Int
  frameTop : Option Int
  frameTime : Option Int
  deriving Repr, DecidableEq

instance : Inhabited Page := ⟨⟨0, 0, none, none, none, none⟩⟩

/-- A FreeImage multi-bitmap (`FIMULTIBITMAP *`): its pages in order.
`FreeImage_GetPageCount` is the length; `FreeImage_LockPage` at a valid index
returns that page (the claims only exercise valid indices; out-of-range
access, NULL in C, is modelled by the default page). -/
structure Mbmp where
  pages : List Page
  deriving Repr, DecidableEq

/-- `FreeImage_GetPageCount`. -/
def Mbmp.pageCount (m : Mbmp) : Int := m.pages.length

/-- `FreeImage_LockPage` at a (valid) index. -/
def Mbmp.lockPage (m : Mbmp) (idx : Int) : Page :=
  m.pages.getD idx.toNat default

/-- The shared `struct imv_loader` state (loader.c lines 17-34), minus the
thread/mutex/event-type bookkeeping.  The `BYTE *buffer` pointer and
`FIMEMORY *fi_buffer` handle are tracked as presence booleans; `double
frame_time` is idealized as an exact rational. -/
structure Loader where
  path : String
  buffer : Bool
  buffer_size : Nat
  fi_buffer : Bool
  mbmp : Option Mbmp
  bmp : Option Bmp
  width : Int
  height : Int
  cur_frame : Int
  next_frame : Int
  num_frames : Int
  frame_time : ℚ
  deriving Repr, DecidableEq

/-- The `struct imv_bitmap` built by `to_imv_bitmap`: width, height and the
(symbolic) pixel source handed to the event queue. -/
structure ImvBitmap where
  width : Int
  height : Int
  src : Bmp
  deriving Repr, DecidableEq

/-- `to_imv_bitmap` (loader.c lines 51-60): snapshot the bitmap's dimensions
and raw pixels. -/
def to_imv_bitmap (b : Bmp) : ImvBitmap := ⟨b.width, b.height, b⟩

/-- An event pushed to the SDL queue: `imageReady` is a `new_image_event`
whose `user.code` is the is-new-image flag, `loadFailed` is a
`bad_image_event` carrying the duplicated path. -/
inductive Event where
  | imageReady (bmp : ImvBitmap) (isNew : Bool)
  | loadFailed (path : String)
  deriving Repr, DecidableEq

/-- A FreeImage resource released by a worker: `FreeImage_Unload`,
`FreeImage_CloseMultiBitmap`, or `FreeImage_CloseMemory` of the loader's
memory stream. -/
inductive FreedRes where
  | unloadBmp (b : Bmp)
  | closeMulti (m : Mbmp)
  | closeMemory
  deriving Repr, DecidableEq

/-- Result of one `bg_new_img` worker run: the loader state it leaves behind,
the events it pushed, and the resources it released, all in program order. -/
structure NewImgResult where
  state : Loader
  events : List Event
  freed : List FreedRes
  deriving Repr, DecidableEq

/-- The outside-world inputs observed by one `bg_new_img` run: the format
detection result, the multi-bitmap open result (consulted only when the
format is GIF), the single-image load result (consulted only for non-GIF
formats), and the value `is_thread_cancelled()` reports at each of the two
polls (before the single-image pixel-format conversion, loader.c line 261,
and at the final lock-held checkpoint, line 276). -/
structure NewImgEnv where
  fmt : Format
  mbmpResult : Option Mbmp
  imageResult : Option Bmp
  cancelledAtConvert : Bool
  cancelledAtFinish : Bool
  deriving Repr, DecidableEq

/-- `error_occurred` (loader.c lines 422-433): duplicate the loader's
*current* path under the lock and push a `bad_image_event` carrying it. -/
def error_occurred (ldr : Loader) : Event :=
  .loadFailed ldr.path

/-- `imv_loader_create` (loader.c lines 62-70): zero-initialised state (the
NULL `path` pointer is modelled as the empty string; no claim exercises an
error before the first `load`). -/
def imv_loader_create : Loader :=
  ⟨"", false, 0, false, none, none, 0, 0, 0, 0, 0, 0⟩

/-- `imv_loader_load` (loader.c lines 92-117): under the lock, replace the
stored path with the request's; if the request is the stdin sentinel `"-"`
(`strncmp(path, "-", 2) == 0`), store the caller's buffer, otherwise close
any open memory stream.  The thread cancellation/spawn is not part of the
state. -/
def imv_loader_load (ldr : Loader) (path : String) (buffer : Bool)
    (buffer_size : Nat) : Loader :=
  let ldr1 := { ldr with path := path }
  if path = "-" then
    { ldr1 with buffer := buffer, buffer_size := buffer_size }
  else if ldr1.fi_buffer then
    { ldr1 with fi_buffer := false }
  else
    ldr1

/-- `imv_loader_time_passed` (loader.c lines 138-155): with more than one
frame, subtract `dt` from `frame_time` and set `get_frame` when the result is
negative (the caller then invokes `imv_loader_load_next_frame`); otherwise
reset `frame_time` to 0.  Returns the updated state and the `get_frame`
flag. -/
def imv_loader_time_passed (ldr : Loader) (dt : ℚ) : Loader × Bool :=
  if 1 < ldr.num_frames then
    let ft := ldr.frame_time - dt
    ({ ldr with frame_time := ft }, decide (ft < 0))
  else
    ({ ldr with frame_time := 0 }, false)

/-- `imv_loader_time_left` (loader.c lines 157-160): read `frame_time`. -/
def imv_loader_time_left (ldr : Loader) : ℚ :=
  ldr.frame_time

/-- A sequence of `imv_loader_time_passed` calls, keeping only the state. -/
def time_passed_many (ldr : Loader) (dts : List ℚ) : Loader :=
  dts.foldl (fun l dt => (imv_loader_time_passed l dt).1) ldr

/-- The tail of `bg_new_img` from the final lock acquisition on (loader.c
lines 272-314): re-check cancellation and, if cancelled, release the newly
created multi-bitmap and bitmap and return without touching the state;
otherwise release the *previous* multi-bitmap and bitmap, install the new
values (`frame_time = raw_frame_time * 0.0001`, line 303), and push the
new-image event built from the new bitmap. -/
def finish_new_img (ldr : Loader) (mbmp : Option Mbmp) (bmp : Option Bmp)
    (width height num_frames raw_frame_time : Int) (cancelled : Bool) :
    NewImgResult :=
  if cancelled then
    ⟨ldr, [],
      (match mbmp with | some m => [.closeMulti m] | none => []) ++
      (match bmp with | some b => [.unloadBmp b] | none => [])⟩
  else
    let freedOld : List FreedRes :=
      (match ldr.mbmp with | some m => [.closeMulti m] | none => []) ++
      (match ldr.bmp with | some b => [.unloadBmp b] | none => [])
    let ldr1 := { ldr with
      mbmp := mbmp
      bmp := bmp
      width := width
      height := height
      cur_frame := 0
      next_frame := 1
      num_frames := num_frames
      frame_time := (raw_frame_time : ℚ) * (1 / 10000) }
    ⟨ldr1, [.imageReady (to_imv_bitmap ((bmp.getD (.alloc 0 0)))) true], freedOld⟩

/-- `bg_new_img` (loader.c lines 162-315).  `from_stdin` is
`strncmp("-", ldr->path, 2) == 0`, i.e. the stored path equals `"-"`; in
that case a memory stream is opened over the caller's buffer before format
detection.  Unknown format: close the memory stream (stdin only) and report
the error.  GIF: open the multi-bitmap (failure reports the error), read the
page count, lock page 0, read its dimensions, convert it to 32 bits, and read
its `FrameTime` tag — the raw frame time is the tag's value when the tag is
present (even if that value is 0) and 100 otherwise.  Non-GIF: load the
single image (failure reports the error and closes the memory stream), poll
cancellation before the pixel-format conversion, then — reading the
dimensions from the still-NULL local `bmp` (lines 266-267), not from the
decoded `image` — convert to 32 bits and unload the original.  Both success
paths end in `finish_new_img`. -/
def bg_new_img (ldr0 : Loader) (env : NewImgEnv) : NewImgResult :=
  let from_stdin := ldr0.path = "-"
  let ldr := if from_stdin then { ldr0 with fi_buffer := true } else ldr0
  if env.fmt = .unknown then
    let ldr1 := if from_stdin then { ldr with fi_buffer := false } else ldr
    ⟨ldr1, [error_occurred ldr1], if from_stdin then [.closeMemory] else []⟩
  else if env.fmt = .gif then
    match env.mbmpResult with
    | none => ⟨ldr, [error_occurred ldr], []⟩
    | some m =>
      let num_frames := m.pageCount
      let frame := m.lockPage 0
      let width := frame.width
      let height := frame.height
      let bmp : Bmp := .convertTo32 (.page 0 frame.width frame.height)
      let raw_frame_time : Int :=
        match frame.frameTime with
        | some t => t
        | none => 100
      finish_new_img ldr (some m) (some bmp) width height num_frames
        raw_frame_time env.cancelledAtFinish
  else
    match env.imageResult with
    | none =>
      let events := [error_occurred ldr]
      let freed : List FreedRes := if ldr.fi_buffer then [.closeMemory] else []
      ⟨{ ldr with fi_buffer := false }, events, freed⟩
    | some image =>
      if env.cancelledAtConvert then
        ⟨ldr, [], [.unloadBmp image]⟩
      else
        let bmp0 : Option Bmp := none
        let width := getWidth bmp0
        let height := getHeight bmp0
        let bmp : Bmp := .convertTo32 image
        let r := finish_new_img ldr none (some bmp) width height 1 0
          env.cancelledAtFinish
        ⟨r.state, r.events, .unloadBmp image :: r.freed⟩

/-- The page `bg_next_frame` will lock: page `next_frame` of the current
multi-bitmap. -/
def frame_page (ldr : Loader) : Page :=
  (ldr.mbmp.getD ⟨[]⟩).lockPage ldr.next_frame

/-- The disposal method `bg_next_frame` acts on: the page's `DisposalMethod`
tag when the new current frame index is positive (0 when the tag is absent),
and 0 for frame 0, which is always rendered raw (loader.c lines 339-345). -/
def effective_disposal (ldr : Loader) : Int :=
  if 0 < ldr.next_frame then (frame_page ldr).disposalMethod.getD 0 else 0

/-- The 32-bit frame `bg_next_frame` composites: the locked page converted to
32 bits, and, when its dimensions differ from the loader's, pasted at the
page's `FrameLeft`/`FrameTop` offset into a freshly allocated canvas-sized
bitmap (loader.c lines 370-377). -/
def expanded_frame (ldr : Loader) : Bmp :=
  let p := frame_page ldr
  let frame32 : Bmp := .convertTo32 (.page ldr.next_frame p.width p.height)
  if ldr.width ≠ frame32.width ∨ ldr.height ≠ frame32.height then
    .paste (.alloc ldr.width ldr.height) frame32 (p.frameLeft.getD 0)
      (p.frameTop.getD 0)
  else
    frame32

/-- `bg_next_frame` (loader.c lines 317-420), run entirely under the lock.
Fewer than two frames: return at once.  Otherwise advance
`cur_frame`/`next_frame`, lock the new current page, read its metadata
(disposal method only for `cur_frame > 0`), add `frame_time * 0.001` to the
frame clock after normalising a zero/absent frame time to 100 ms, expand an
inset frame to canvas size, then dispose: methods 0 and 1 composite the frame
over the previous bitmap converted to 24 bits when one exists and
`cur_frame > 0`, and otherwise (including methods 2 and 3) the frame becomes
the bitmap directly; finally push the not-new-image event built from the new
bitmap. -/
def bg_next_frame (ldr : Loader) : Loader × List Event :=
  if ldr.num_frames < 2 then
    (ldr, [])
  else
    let cur_frame := ldr.next_frame
    let next_frame := (cur_frame + 1) % ldr.num_frames
    let frame := frame_page ldr
    let disposal_method : Int := effective_disposal ldr
    let frame_time0 : Int := frame.frameTime.getD 0
    let frame_time : Int := if frame_time0 = 0 then 100 else frame_time0
    let new_frame_time : ℚ := ldr.frame_time + (frame_time : ℚ) * (1 / 1000)
    let frame32 : Bmp := expanded_frame ldr
    let new_bmp : Option Bmp :=
      if disposal_method = 0 ∨ disposal_method = 1 then
        match ldr.bmp with
        | some prev =>
          if 0 < cur_frame then
            some (.composite frame32 (.convertTo24 prev))
          else
            some frame32
        | none => some frame32
      else if disposal_method = 2 then
        some frame32
      else if disposal_method = 3 then
        some frame32
      else
        ldr.bmp
    let ldr1 := { ldr with
      cur_frame := cur_frame
      next_frame := next_frame
      frame_time := new_frame_time
      bmp := new_bmp }
    (ldr1, [.imageReady (to_imv_bitmap (new_bmp.getD (.alloc 0 0))) false])

/-! ## Concrete inputs used to evaluate the definitions -/

/-- A GIF page with a plain 100 ms frame time and no other tags. -/
def pPlain : Page := ⟨320, 200, none, none, none, some 100⟩

/-- A GIF page whose `FrameTime` tag is present but stores 0, with disposal
method 1 and a (10, 20) offset. -/
def pZero : Page := ⟨320, 200, some 1, some 10, some 20, some 0⟩

/-- A two-page multi-bitmap: `pPlain` then `pZero`. -/
def mb2 : Mbmp := ⟨[pPlain, pZero]⟩

/-- A two-page multi-bitmap whose first page has a zero `FrameTime` tag. -/
def mbZeroFirst : Mbmp := ⟨[pZero, pPlain]⟩

/-- Loader state after successfully loading the two-frame GIF `mb2`. -/
def ldrAnim : Loader :=
  ⟨"anim.gif", false, 0, false, some mb2, some (.convertTo32 (.page 0 320 200)),
    320, 200, 0, 1, 2, 1 / 100⟩

/-- Loader state after successfully loading a single-frame image. -/
def ldrStatic : Loader :=
  ⟨"cat.png", false, 0, false, none, some (.convertTo32 (.img 640 480)),
    0, 0, 0, 1, 1, 0⟩

/-! ## Theorems settling the claims -/

/-- Evaluation lemma: a `bg_new_img` run that is not reading from stdin,
whose format detection returns GIF and whose multi-bitmap open succeeds,
reaches `finish_new_img` with page 0's dimensions, the page count, and page
0's raw frame time (the tag's value when present, 100 when absent). -/
theorem bg_new_img_gif_ok (ldr : Loader) (env : NewImgEnv) (m : Mbmp)
    (hpath : ¬ ldr.path = "-") (hfmt : env.fmt = .gif)
    (hm : env.mbmpResult = some m) :
    bg_new_img ldr env =
      finish_new_img ldr (some m)
        (some (.convertTo32 (.page 0 (m.lockPage 0).width
          (m.lockPage 0).height)))
        (m.lockPage 0).width (m.lockPage 0).height m.pageCount
        (match (m.lockPage 0).frameTime with | some t => t | none => 100)
        env.cancelledAtFinish := by
  simp [bg_new_img, hfmt, hm, hpath]

/-- C1: the claim says a successful single-frame load installs the decoded
bitmap's dimensions into the loader.  The code instead reads
`FreeImage_GetWidth(bmp)`/`FreeImage_GetHeight(bmp)` at loader.c lines
266-267 while the local `bmp` is still NULL (it is first assigned on the next
line), so it installs 0×0 whatever the decoded image's size: here a 640×480
decode installs width = height = 0.  The GIF path, by contrast, reads the
dimensions from the locked first page.  Reading `image` instead of `bmp` was
clearly intended, so this is a code bug, not a spec error. -/
theorem C1_single_frame_install_uses_null_bmp :
    (bg_new_img (imv_loader_load imv_loader_create "cat.png" false 0)
        ⟨.other 13, none, some (.img 640 480), false, false⟩).state.width = 0 ∧
    (bg_new_img (imv_loader_load imv_loader_create "cat.png" false 0)
        ⟨.other 13, none, some (.img 640 480), false, false⟩).state.height = 0 ∧
    (Bmp.img 640 480).width = 640 ∧ (Bmp.img 640 480).height = 480 := by
  decide

/-- C2: the claim says the initial `frame_time_remaining` of a multi-frame
load is frame 0's duration in ms divided by 1000, with absent *or zero*
duration defaulting to 100 ms.  The code (loader.c line 303) instead
multiplies by 0.0001 — dividing by 10000, ten times too small, unlike the
`* 0.001` used on frame advance — and (lines 231-235) only applies the
100 ms default when the tag is absent, not when it stores 0.  Evaluations: a
100 ms first frame installs 1/100 s where the claim requires 1/10 s, and a
present-but-zero duration installs 0 where the claim requires 1/10 s. -/
theorem C2_initial_frame_time_wrong_scale :
    (bg_new_img (imv_loader_load imv_loader_create "anim.gif" false 0)
        ⟨.gif, some mb2, none, false, false⟩).state.frame_time = 1 / 100 ∧
    (100 : ℚ) / 1000 = 1 / 10 ∧ ((1 : ℚ) / 100) ≠ 1 / 10 ∧
    (bg_new_img (imv_loader_load imv_loader_create "anim.gif" false 0)
        ⟨.gif, some mbZeroFirst, none, false, false⟩).state.frame_time = 0 := by
  have h1 := bg_new_img_gif_ok
    (imv_loader_load imv_loader_create "anim.gif" false 0)
    ⟨.gif, some mb2, none, false, false⟩ mb2 (by decide) rfl rfl
  have h2 := bg_new_img_gif_ok
    (imv_loader_load imv_loader_create "anim.gif" false 0)
    ⟨.gif, some mbZeroFirst, none, false, false⟩ mbZeroFirst (by decide) rfl rfl
  have e1 : (mb2.lockPage 0).frameTime = some 100 := by decide
  have e2 : (mbZeroFirst.lockPage 0).frameTime = some 0 := by decide
  refine ⟨?_, by norm_num, by norm_num, ?_⟩
  · rw [h1]
    simp [finish_new_img, e1]
    norm_num
  · rw [h2]
    simp [finish_new_img, e2]

/-- C3 counterexample: after the install performed by a successful
single-frame load, `frame_count = 1` but `next_frame = 1`, while
`(cur_frame + 1) mod frame_count = (0 + 1) mod 1 = 0`, so the claimed
invariant fails in the static case it explicitly includes. -/
theorem C3_static_case_counterexample :
    (bg_new_img (imv_loader_load imv_loader_create "cat.png" false 0)
        ⟨.other 13, none, some (.img 640 480), false, false⟩).state.num_frames
        = 1 ∧
    (bg_new_img (imv_loader_load imv_loader_create "cat.png" false 0)
        ⟨.other 13, none, some (.img 640 480), false, false⟩).state.next_frame
      ≠
      ((bg_new_img (imv_loader_load imv_loader_create "cat.png" false 0)
          ⟨.other 13, none, some (.img 640 480), false, false⟩).state.cur_frame
        + 1) %
      (bg_new_img (imv_loader_load imv_loader_create "cat.png" false 0)
          ⟨.other 13, none, some (.img 640 480), false, false⟩).state.num_frames
    := by
  decide

/-- C3 (amended): the invariant `next_frame = (cur_frame + 1) mod
frame_count` holds after a successful (non-cancelled) install whose frame
count is at least 2, and after every `bg_next_frame` run on a state with at
least 2 frames; an install with frame count 1 sets `next_frame = 1` (the
loader unconditionally writes `cur_frame = 0; next_frame = 1`), which
violates the mod-1 form of the invariant but is never consulted, since
`bg_next_frame` returns immediately when `num_frames < 2`. -/
theorem C3_next_frame_invariant (ldr : Loader) (m : Mbmp) (env : NewImgEnv)
    (hfmt : env.fmt = .gif) (hm : env.mbmpResult = some m)
    (hn : 2 ≤ m.pages.length) (hc : env.cancelledAtFinish = false)
    (hadv : 2 ≤ ldr.num_frames) :
    ((bg_new_img ldr env).state.next_frame =
      ((bg_new_img ldr env).state.cur_frame + 1) %
        (bg_new_img ldr env).state.num_frames) ∧
    ((bg_next_frame ldr).1.next_frame =
      ((bg_next_frame ldr).1.cur_frame + 1) % (bg_next_frame ldr).1.num_frames)
    := by
  constructor
  · simp only [bg_new_img, hfmt, hm, hc, finish_new_img, Mbmp.pageCount]
    simp only [reduceCtorEq, if_false, Bool.false_eq_true]
    have h1 : (1 : Int) % (m.pages.length : Int) = 1 := by
      apply Int.emod_eq_of_lt
      · norm_num
      · exact_mod_cast hn
    simpa using h1.symm
  · have hlt : ¬ ldr.num_frames < 2 := by omega
    simp [bg_next_frame, hlt]

/-- C3 witness: the amended invariant instantiated on the concrete two-frame
animation state. -/
theorem C3_next_frame_invariant_witness :
    ((⟨.gif, some mb2, none, false, false⟩ : NewImgEnv).fmt = .gif ∧
     (⟨.gif, some mb2, none, false, false⟩ : NewImgEnv).mbmpResult = some mb2 ∧
     2 ≤ mb2.pages.length ∧
     (⟨.gif, some mb2, none, false, false⟩ : NewImgEnv).cancelledAtFinish
       = false ∧
     2 ≤ ldrAnim.num_frames) ∧
    ((bg_new_img ldrAnim ⟨.gif, some mb2, none, false, false⟩).state.next_frame
       =
      ((bg_new_img ldrAnim
          ⟨.gif, some mb2, none, false, false⟩).state.cur_frame + 1) %
        (bg_new_img ldrAnim
          ⟨.gif, some mb2, none, false, false⟩).state.num_frames) ∧
    ((bg_next_frame ldrAnim).1.next_frame =
      ((bg_next_frame ldrAnim).1.cur_frame + 1) %
        (bg_next_frame ldrAnim).1.num_frames) :=
  ⟨⟨rfl, rfl, by decide, rfl, by decide⟩,
    C3_next_frame_invariant ldrAnim mb2 ⟨.gif, some mb2, none, false, false⟩
      rfl rfl (by decide) rfl (by decide)⟩

/-- C4 counterexample: with cancellation already signalled (both polls would
report it), a worker whose format detection fails still emits a load_failed
event — the failure paths run before any cancellation checkpoint, so the
claim that a cancelled worker emits no event even when format detection
fails is false. -/
theorem C4_cancelled_format_failure_still_emits :
    (bg_new_img (imv_loader_load imv_loader_create "bad.dat" false 0)
        ⟨.unknown, none, none, true, true⟩).events =
      [.loadFailed "bad.dat"] := by
  decide

/-- C4 (amended): a worker that observes cancellation at one of its two
checkpoints (before the single-image pixel conversion, or at the final
lock-held check) emits no event; but the checkpoints come after format
detection and decode, so a worker whose format detection fails emits one
load_failed event even when cancellation was already signalled. -/
theorem C4_checkpoint_cancellation_is_silent (ldr : Loader) (env : NewImgEnv)
    (h1 : env.cancelledAtConvert = true) (h2 : env.cancelledAtFinish = true) :
    (env.fmt ≠ .unknown →
      (env.fmt = .gif → env.mbmpResult.isSome = true) →
      (env.fmt ≠ .gif → env.imageResult.isSome = true) →
      (bg_new_img ldr env).events = []) ∧
    (env.fmt = .unknown →
      (bg_new_img ldr env).events = [.loadFailed ldr.path]) := by
  obtain ⟨fmt, mres, ires, c1, c2⟩ := env
  simp only [] at h1 h2
  subst h1
  subst h2
  constructor
  · intro hu hg hi
    by_cases hp : ldr.path = "-" <;>
      cases fmt <;> cases mres <;> cases ires <;>
        simp_all [bg_new_img, finish_new_img]
  · rintro rfl
    by_cases hp : ldr.path = "-" <;>
      simp [bg_new_img, error_occurred, hp]

/-- C4 witness: a GIF worker with cancellation signalled at both checkpoints
emits nothing. -/
theorem C4_checkpoint_cancellation_is_silent_witness :
    ((⟨.gif, some mb2, none, true, true⟩ : NewImgEnv).cancelledAtConvert
        = true ∧
      (⟨.gif, some mb2, none, true, true⟩ : NewImgEnv).cancelledAtFinish
        = true) ∧
    (bg_new_img ldrAnim ⟨.gif, some mb2, none, true, true⟩).events = [] :=
  ⟨⟨rfl, rfl⟩,
    (C4_checkpoint_cancellation_is_silent ldrAnim
        ⟨.gif, some mb2, none, true, true⟩ rfl rfl).1
      (by decide) (fun _ => rfl) (fun h => absurd rfl h)⟩

/-- C5: a new-image worker that reaches the final lock-held checkpoint and
observes cancellation releases exactly the multi-bitmap and bitmap it newly
created, pushes no event, and leaves the loader's AnimationSource (`mbmp`),
Canvas (`bmp`), `width`, `height`, `cur_frame`, `next_frame`, `num_frames`
and `frame_time` exactly as they were. -/
theorem C5_final_checkpoint_cancel_no_mutation (ldr : Loader)
    (env : NewImgEnv)
    (hfin : env.cancelledAtFinish = true)
    (hu : env.fmt ≠ .unknown)
    (hg : env.fmt = .gif → env.mbmpResult.isSome = true)
    (hi : env.fmt ≠ .gif → env.imageResult.isSome = true ∧
      env.cancelledAtConvert = false) :
    (bg_new_img ldr env).state.mbmp = ldr.mbmp ∧
    (bg_new_img ldr env).state.bmp = ldr.bmp ∧
    (bg_new_img ldr env).state.width = ldr.width ∧
    (bg_new_img ldr env).state.height = ldr.height ∧
    (bg_new_img ldr env).state.cur_frame = ldr.cur_frame ∧
    (bg_new_img ldr env).state.next_frame = ldr.next_frame ∧
    (bg_new_img ldr env).state.num_frames = ldr.num_frames ∧
    (bg_new_img ldr env).state.frame_time = ldr.frame_time ∧
    (bg_new_img ldr env).events = [] ∧
    (∀ m, env.mbmpResult = some m → env.fmt = .gif →
      (bg_new_img ldr env).freed =
        [.closeMulti m,
          .unloadBmp (.convertTo32 (.page 0 (m.lockPage 0).width
            (m.lockPage 0).height))]) ∧
    (∀ img, env.imageResult = some img → env.fmt ≠ .gif →
      (bg_new_img ldr env).freed =
        [.unloadBmp img, .unloadBmp (.convertTo32 img)]) := by
  obtain ⟨fmt, mres, ires, c1, c2⟩ := env
  simp only [] at hfin hg hi
  subst hfin
  by_cases hp : ldr.path = "-" <;>
    cases fmt <;> cases mres <;> cases ires <;>
      simp_all [bg_new_img, finish_new_img]

/-- C5 witness: cancelling a GIF re-load at the final checkpoint leaves the
loaded state alone and releases the new multi-bitmap and converted frame. -/
theorem C5_final_checkpoint_cancel_no_mutation_witness :
    ((⟨.gif, some mb2, none, false, true⟩ : NewImgEnv).cancelledAtFinish
        = true) ∧
    (bg_new_img ldrAnim ⟨.gif, some mb2, none, false, true⟩).state.mbmp
      = ldrAnim.mbmp ∧
    (bg_new_img ldrAnim ⟨.gif, some mb2, none, false, true⟩).state.bmp
      = ldrAnim.bmp ∧
    (bg_new_img ldrAnim ⟨.gif, some mb2, none, false, true⟩).state.frame_time
      = ldrAnim.frame_time ∧
    (bg_new_img ldrAnim ⟨.gif, some mb2, none, false, true⟩).events = [] ∧
    (bg_new_img ldrAnim ⟨.gif, some mb2, none, false, true⟩).freed =
      [.closeMulti mb2,
        .unloadBmp (.convertTo32 (.page 0 (mb2.lockPage 0).width
          (mb2.lockPage 0).height))] := by
  have h := C5_final_checkpoint_cancel_no_mutation ldrAnim
    ⟨.gif, some mb2, none, false, true⟩ rfl (by decide) (fun _ => rfl)
    (fun hne => absurd rfl hne)
  obtain ⟨h1, h2, h3, h4, h5, h6, h7, h8, h9, h10, h11⟩ := h
  exact ⟨rfl, h1, h2, h8, h9, h10 mb2 rfl rfl⟩

/-- C6: a load whose format detection fails, whose GIF multi-bitmap open
fails, or whose single-image decode fails, emits exactly one load_failed
event (carrying the stored path), and leaves the previously loaded state —
AnimationSource, Canvas, dimensions, frame indices, frame count and frame
clock — untouched. -/
theorem C6_failure_one_event_state_preserved (ldr : Loader) (env : NewImgEnv)
    (hfail : env.fmt = .unknown ∨
      (env.fmt = .gif ∧ env.mbmpResult = none) ∨
      (env.fmt ≠ .unknown ∧ env.fmt ≠ .gif ∧ env.imageResult = none)) :
    (bg_new_img ldr env).events = [.loadFailed ldr.path] ∧
    (bg_new_img ldr env).state.mbmp = ldr.mbmp ∧
    (bg_new_img ldr env).state.bmp = ldr.bmp ∧
    (bg_new_img ldr env).state.width = ldr.width ∧
    (bg_new_img ldr env).state.height = ldr.height ∧
    (bg_new_img ldr env).state.cur_frame = ldr.cur_frame ∧
    (bg_new_img ldr env).state.next_frame = ldr.next_frame ∧
    (bg_new_img ldr env).state.num_frames = ldr.num_frames ∧
    (bg_new_img ldr env).state.frame_time = ldr.frame_time := by
  obtain ⟨fmt, mres, ires, c1, c2⟩ := env
  simp only [] at hfail
  by_cases hp : ldr.path = "-" <;>
    cases fmt <;> cases mres <;> cases ires <;>
      simp_all [bg_new_img, finish_new_img, error_occurred]

/-- C6 witness: an unknown-format load against the loaded animation state
reports one failure and changes nothing. -/
theorem C6_failure_one_event_state_preserved_witness :
    ((⟨.unknown, none, none, false, false⟩ : NewImgEnv).fmt = .unknown) ∧
    (bg_new_img ldrAnim ⟨.unknown, none, none, false, false⟩).events =
      [.loadFailed ldrAnim.path] ∧
    (bg_new_img ldrAnim ⟨.unknown, none, none, false, false⟩).state.mbmp
      = ldrAnim.mbmp ∧
    (bg_new_img ldrAnim ⟨.unknown, none, none, false, false⟩).state.bmp
      = ldrAnim.bmp ∧
    (bg_new_img ldrAnim
        ⟨.unknown, none, none, false, false⟩).state.frame_time
      = ldrAnim.frame_time := by
  have h := C6_failure_one_event_state_preserved ldrAnim
    ⟨.unknown, none, none, false, false⟩ (Or.inl rfl)
  exact ⟨rfl, h.1, h.2.1, h.2.2.1, h.2.2.2.2.2.2.2.2⟩

/-- `imv_loader_time_passed` never changes `num_frames`. -/
theorem time_passed_num_frames (ldr : Loader) (dt : ℚ) :
    (imv_loader_time_passed ldr dt).1.num_frames = ldr.num_frames := by
  by_cases h : 1 < ldr.num_frames <;> simp [imv_loader_time_passed, h]

/-- With at most one frame, any nonempty sequence of time ticks leaves the
frame clock at 0. -/
theorem time_passed_many_static (dts : List ℚ) (ldr : Loader)
    (h : ldr.num_frames ≤ 1) (hne : dts ≠ []) :
    imv_loader_time_left (time_passed_many ldr dts) = 0 := by
  induction dts generalizing ldr with
  | nil => exact absurd rfl hne
  | cons d rest ih =>
    by_cases hr : rest = []
    · subst hr
      have h2 : ¬ 1 < ldr.num_frames := by omega
      simp [time_passed_many, imv_loader_time_passed, h2,
        imv_loader_time_left]
    · have hstep : time_passed_many ldr (d :: rest) =
          time_passed_many (imv_loader_time_passed ldr d).1 rest := rfl
      rw [hstep]
      apply ih
      · rw [time_passed_num_frames]
        exact h
      · exact hr

/-- C7: with more than one frame, `imv_loader_time_passed` subtracts `dt`
from the frame clock and requests a frame advance exactly when the result is
negative; with at most one frame it resets the clock to 0, never requests an
advance, and the remaining time stays 0 across any nonempty sequence of
ticks. -/
theorem C7_time_elapsed_semantics (ldr : Loader) (dt : ℚ) :
    (1 < ldr.num_frames →
      (imv_loader_time_passed ldr dt).1.frame_time = ldr.frame_time - dt ∧
      ((imv_loader_time_passed ldr dt).2 = true ↔
        ldr.frame_time - dt < 0)) ∧
    (ldr.num_frames ≤ 1 →
      (imv_loader_time_passed ldr dt).1.frame_time = 0 ∧
      (imv_loader_time_passed ldr dt).2 = false ∧
      ∀ dts : List ℚ, dts ≠ [] →
        imv_loader_time_left (time_passed_many ldr dts) = 0) := by
  constructor
  · intro h
    simp [imv_loader_time_passed, h]
  · intro h
    have h2 : ¬ 1 < ldr.num_frames := by omega
    refine ⟨?_, ?_, fun dts hne => time_passed_many_static dts ldr h hne⟩ <;>
      simp [imv_loader_time_passed, h2]

/-- C7 witness: three ticks on a loaded single-frame image leave the clock
at 0 and never request an advance. -/
theorem C7_time_elapsed_semantics_witness :
    ldrStatic.num_frames ≤ 1 ∧
    (imv_loader_time_passed ldrStatic 5).1.frame_time = 0 ∧
    (imv_loader_time_passed ldrStatic 5).2 = false ∧
    imv_loader_time_left (time_passed_many ldrStatic [5, 5, 5]) = 0 :=
  have h := (C7_time_elapsed_semantics ldrStatic 5).2 (by decide)
  ⟨by decide, h.1, h.2.1, h.2.2 [5, 5, 5] (by decide)⟩

/-- C8: every frame advance on a multi-frame state adds the new current
frame's duration (in ms, divided by 1000) to the frame clock, accumulating
onto the prior value; a missing or zero `FrameTime` tag is normalized to
100 ms, i.e. adds exactly 1/10 of a second. -/
theorem C8_frame_advance_accumulates (ldr : Loader)
    (hn : 2 ≤ ldr.num_frames) :
    (bg_next_frame ldr).1.frame_time =
      ldr.frame_time +
        (((if (frame_page ldr).frameTime.getD 0 = 0 then 100
            else (frame_page ldr).frameTime.getD 0 : Int) : ℚ)) / 1000 ∧
    (((frame_page ldr).frameTime = none ∨
        (frame_page ldr).frameTime = some 0) →
      (bg_next_frame ldr).1.frame_time = ldr.frame_time + 1 / 10) := by
  have h2 : ¬ ldr.num_frames < 2 := by omega
  constructor
  · simp [bg_next_frame, h2]
    split <;> norm_num [div_eq_mul_inv]
  · intro hz
    rcases hz with hz | hz <;>
      · simp [bg_next_frame, h2, hz]
        norm_num

/-- C8 witness: advancing onto the second frame of the loaded animation,
whose `FrameTime` tag is present but zero, adds exactly 1/10 s. -/
theorem C8_frame_advance_accumulates_witness :
    2 ≤ ldrAnim.num_frames ∧
    (frame_page ldrAnim).frameTime = some 0 ∧
    (bg_next_frame ldrAnim).1.frame_time = ldrAnim.frame_time + 1 / 10 :=
  ⟨by decide, by decide,
    (C8_frame_advance_accumulates ldrAnim (by decide)).2 (Or.inr (by decide))⟩

/-- C9: on a frame advance, disposal methods 0 (unspecified) and 1
(composite over previous) composite the possibly-expanded frame over the
previous canvas converted to an opaque 24-bit background when a previous
canvas exists and the new current frame index is positive; with no previous
canvas or at frame 0 the possibly-expanded frame becomes the canvas
directly, and disposal methods 2 (restore to background) and 3 (restore to
previous) always take the direct branch. -/
theorem C9_disposal_policy (ldr : Loader) (hn : 2 ≤ ldr.num_frames) :
    ((effective_disposal ldr = 0 ∨ effective_disposal ldr = 1) →
      (∀ prev, ldr.bmp = some prev → 0 < ldr.next_frame →
        (bg_next_frame ldr).1.bmp =
          some (.composite (expanded_frame ldr) (.convertTo24 prev))) ∧
      ((ldr.bmp = none ∨ ¬ 0 < ldr.next_frame) →
        (bg_next_frame ldr).1.bmp = some (expanded_frame ldr))) ∧
    ((effective_disposal ldr = 2 ∨ effective_disposal ldr = 3) →
      (bg_next_frame ldr).1.bmp = some (expanded_frame ldr)) := by
  have h2 : ¬ ldr.num_frames < 2 := by omega
  refine ⟨fun hd => ⟨fun prev hprev hpos => ?_, fun hno => ?_⟩, fun hd => ?_⟩
  · rcases hd with hd | hd <;> simp [bg_next_frame, h2, hd, hprev, hpos]
  · rcases hno with hno | hno
    · rcases hd with hd | hd <;> simp [bg_next_frame, h2, hd, hno]
    · cases hb : ldr.bmp <;> rcases hd with hd | hd <;>
        simp [bg_next_frame, h2, hd, hno, hb]
  · rcases hd with hd | hd <;> simp [bg_next_frame, h2, hd]

/-- C9 witness: advancing onto the second frame (disposal method 1, previous
canvas present) composites the expanded frame over the 24-bit conversion of
the previous canvas. -/
theorem C9_disposal_policy_witness :
    2 ≤ ldrAnim.num_frames ∧
    effective_disposal ldrAnim = 1 ∧
    ldrAnim.bmp = some (.convertTo32 (.page 0 320 200)) ∧
    (bg_next_frame ldrAnim).1.bmp =
      some (.composite (expanded_frame ldrAnim)
        (.convertTo24 (.convertTo32 (.page 0 320 200)))) :=
  ⟨by decide, by decide, rfl,
    ((C9_disposal_policy ldrAnim (by decide)).1 (Or.inr (by decide))).1
      (.convertTo32 (.page 0 320 200)) rfl (by decide)⟩

/-- C10: `error_occurred` reports the loader's *current* stored path, so
when a newer `imv_loader_load` has already replaced the stored path, the
failure event of the superseded worker names the newer load's path, not the
failed request's. -/
theorem C10_error_reports_current_path (ldr : Loader) (newPath : String)
    (b : Bool) (n : Nat) (hne : newPath ≠ ldr.path) :
    error_occurred (imv_loader_load ldr newPath b n) =
      .loadFailed newPath ∧
    error_occurred (imv_loader_load ldr newPath b n) ≠
      .loadFailed ldr.path := by
  have hp : (imv_loader_load ldr newPath b n).path = newPath := by
    by_cases h : newPath = "-"
    · simp [imv_loader_load, h]
    · by_cases h2 : ldr.fi_buffer <;> simp [imv_loader_load, h, h2]
  refine ⟨by simp [error_occurred, hp], ?_⟩
  simp [error_occurred, hp, hne]

/-- C10 witness: after a newer load of "new.gif" replaces the stored
"anim.gif", an error report names "new.gif". -/
theorem C10_error_reports_current_path_witness :
    ("new.gif" : String) ≠ ldrAnim.path ∧
    error_occurred (imv_loader_load ldrAnim "new.gif" false 0) =
      .loadFailed "new.gif" ∧
    error_occurred (imv_loader_load ldrAnim "new.gif" false 0) ≠
      .loadFailed ldrAnim.path :=
  have h := C10_error_reports_current_path ldrAnim "new.gif" false 0
    (by decide)
  ⟨by decide, h.1, h.2⟩

end Imv
